import Mathlib

/-!
Shallow embedding of the StarrTrakt scripts (src/starrtrakt.py, src/common.py,
src/radarr_trakt.py): token persistence and expiry, the getValidToken state
machine, the watchlist request retry loop, test_connection, event dispatch,
and the startup credential check.  I/O effects (HTTP exchanges, the PIN
prompt, the clock) are passed in explicitly as environment values; exceptions
are modelled with explicit result constructors.
-/

namespace StarrTrakt

/-- A JSON scalar value as it appears in the token file: Trakt token fields
are strings (access_token, refresh_token) or integers (created_at,
expires_in). -/
inductive JVal where
  | str (s : String)
  | int (n : Int)
deriving DecidableEq, Repr

/-- A JSON object: association list of key/value pairs, as produced by
json.dump / consumed by json.load on the token file. -/
abbrev JObj := List (String × JVal)

/-- Dictionary lookup, first matching key (Python dict semantics for the
well-formed objects produced by trakt_save_tokens, whose keys are distinct). -/
def jlookup (k : String) (d : JObj) : Option JVal :=
  (d.find? (fun p => p.1 = k)).map (fun p => p.2)

/-- The in-memory token record: the four TokenRecord fields, each possibly
absent (the Python code reads the token dict with `in` membership tests, so
any subset of fields may be present). -/
structure TokenRecord where
  access_token : Option String
  refresh_token : Option String
  created_at : Option Int
  expires_in : Option Int
deriving DecidableEq, Repr

/-- Python truthiness of the token dict: an empty dict is falsy. -/
def TokenRecord.isEmpty (t : TokenRecord) : Bool :=
  t.access_token.isNone && t.refresh_token.isNone &&
  t.created_at.isNone && t.expires_in.isNone

/-- Serialize a token record to the JSON object written by
trakt_save_tokens (only present fields are emitted, matching json.dump of
the dict returned by the Trakt API). -/
def tokenToJson (t : TokenRecord) : JObj :=
  (match t.access_token with | some a => [("access_token", JVal.str a)] | none => []) ++
  (match t.refresh_token with | some r => [("refresh_token", JVal.str r)] | none => []) ++
  (match t.created_at with | some c => [("created_at", JVal.int c)] | none => []) ++
  (match t.expires_in with | some e => [("expires_in", JVal.int e)] | none => [])

/-- Deserialize the JSON object read by trakt_load_tokens back into a token
record (a missing key or a key of the wrong JSON type reads as absent). -/
def tokenFromJson (d : JObj) : TokenRecord where
  access_token := match jlookup "access_token" d with | some (JVal.str a) => some a | _ => none
  refresh_token := match jlookup "refresh_token" d with | some (JVal.str r) => some r | _ => none
  created_at := match jlookup "created_at" d with | some (JVal.int c) => some c | _ => none
  expires_in := match jlookup "expires_in" d with | some (JVal.int e) => some e | _ => none

/-- The persisted token file: `none` models an absent file
(os.path.exists false in trakt_load_tokens). -/
abbrev TokenFile := Option JObj

/-- trakt_load_tokens: read and parse the token file if it exists, else
return None. -/
def trakt_load_tokens (f : TokenFile) : Option TokenRecord :=
  f.map tokenFromJson

/-- trakt_save_tokens: overwrite the token file with the serialized record. -/
def trakt_save_tokens (t : TokenRecord) : TokenFile :=
  some (tokenToJson t)

/-- trakt_is_token_expired: true if the record is falsy (absent or empty
dict) or lacks created_at or expires_in, else true iff
now > created_at + expires_in - 60. -/
def trakt_is_token_expired (tokens : Option TokenRecord) (now : Int) : Bool :=
  match tokens with
  | none => true
  | some t =>
    if t.isEmpty then true
    else
      match t.created_at, t.expires_in with
      | some c, some e => decide (now > c + e - 60)
      | _, _ => true

/-- Outcome of one token-exchange HTTP call (trakt_refresh_tokens or
trakt_get_new_tokens_with_pin): either the parsed token JSON, or any
exception (network error, non-2xx from urlopen, malformed response). -/
inductive ExchangeResult where
  | success (t : TokenRecord)
  | failure (msg : String)
deriving DecidableEq, Repr

/-- The exceptions trakt_get_valid_tokens can raise. -/
inductive AuthError where
  | noPin
  | pinExchangeFailed (msg : String)
deriving DecidableEq, Repr

/-- External environment of one trakt_get_valid_tokens call: what the
refresh exchange would return if issued, what input() yields at the PIN
prompt, and what the PIN exchange would return if issued. -/
structure AuthEnv where
  refreshResult : ExchangeResult
  pinInput : String
  pinExchangeResult : ExchangeResult
deriving Repr

/-- Observable outcome of trakt_get_valid_tokens: its return value or
raised exception, the token file afterwards, and how many network
exchanges and PIN prompts it performed. -/
structure AuthOutcome where
  result : Except AuthError TokenRecord
  file : TokenFile
  refreshCalls : Nat
  pinPrompts : Nat
  pinExchangeCalls : Nat
deriving Repr

/-- Python str.strip(): drop leading and trailing whitespace. -/
def pyStrip (s : String) : String :=
  String.mk (((s.data.dropWhile Char.isWhitespace).reverse.dropWhile Char.isWhitespace).reverse)

/-- The PIN-based tail of trakt_get_valid_tokens: prompt for a PIN, raise
if the stripped input is empty, else exchange it and persist on success. -/
def pinFlow (env : AuthEnv) (file : TokenFile) (refreshCalls : Nat) : AuthOutcome :=
  let pin := pyStrip env.pinInput
  if pin = "" then
    ⟨Except.error AuthError.noPin, file, refreshCalls, 1, 0⟩
  else
    match env.pinExchangeResult with
    | ExchangeResult.success t =>
        ⟨Except.ok t, trakt_save_tokens t, refreshCalls, 1, 1⟩
    | ExchangeResult.failure m =>
        ⟨Except.error (AuthError.pinExchangeFailed m), file, refreshCalls, 1, 1⟩

/-- trakt_get_valid_tokens: fast path when the stored record is truthy and
not expired; else a refresh exchange when a refresh_token is present
(persist and return on success, log and fall through on failure); else the
interactive PIN flow. -/
def trakt_get_valid_tokens (env : AuthEnv) (now : Int) (file : TokenFile) : AuthOutcome :=
  match trakt_load_tokens file with
  | some t =>
    if !t.isEmpty && !(trakt_is_token_expired (some t) now) then
      ⟨Except.ok t, file, 0, 0, 0⟩
    else if !t.isEmpty && t.refresh_token.isSome then
      match env.refreshResult with
      | ExchangeResult.success newT =>
          ⟨Except.ok newT, trakt_save_tokens newT, 1, 0, 0⟩
      | ExchangeResult.failure _ => pinFlow env file 1
    else pinFlow env file 0
  | none => pinFlow env file 0

/-- Outcome of one http_post call: a (status, body) pair — returned both
for 2xx and for HTTPError — or a transport-level exception, which
http_post re-raises. -/
inductive HttpOutcome where
  | resp (status : Nat) (body : String)
  | transportFail
deriving DecidableEq, Repr

/-- How one call of _make_watchlist_request terminates: normal return of
the parsed body, the status>=400 raise at line 176-177, the post-loop
raise at line 181, a propagated exception from trakt_headers or from the
401-path trakt_get_valid_tokens call, or a propagated transport error
from http_post. -/
inductive WatchlistResult where
  | success (body : String)
  | requestError (status : Nat) (body : String)
  | exhausted
  | authFailure
  | transportError
deriving DecidableEq, Repr

/-- External environment of one _make_watchlist_request call: whether each
of the three auth-related calls (trakt_headers before attempt 0, the
trakt_get_valid_tokens call in the 401 branch, trakt_headers before
attempt 1) returns normally, and the HTTP response each attempt would
receive. -/
structure WatchlistEnv where
  auth1Ok : Bool
  reauthOk : Bool
  auth2Ok : Bool
  resp1 : HttpOutcome
  resp2 : HttpOutcome
deriving DecidableEq, Repr

/-- How one iteration of the retry loop ends: a return/raise out of the
function, or `continue`. -/
inductive LoopStep where
  | ret (r : WatchlistResult)
  | cont
deriving DecidableEq, Repr

/-- Body of the `for attempt in range(2)` loop of _make_watchlist_request,
for a given attempt index: obtain headers (an exception propagates), POST
(a transport error propagates), then branch on the status: (401 and
attempt 0) re-authenticates and continues, status >= 400 raises with
status and body, otherwise the body is returned. -/
def attemptBody (env : WatchlistEnv) (attempt : Nat) : LoopStep :=
  let authOk := if attempt = 0 then env.auth1Ok else env.auth2Ok
  if !authOk then LoopStep.ret WatchlistResult.authFailure
  else
    match (if attempt = 0 then env.resp1 else env.resp2) with
    | HttpOutcome.transportFail => LoopStep.ret WatchlistResult.transportError
    | HttpOutcome.resp s b =>
      if s = 401 && attempt = 0 then
        if env.reauthOk then LoopStep.cont
        else LoopStep.ret WatchlistResult.authFailure
      else if s ≥ 400 then LoopStep.ret (WatchlistResult.requestError s b)
      else LoopStep.ret (WatchlistResult.success b)

/-- Number of HTTP POST attempts the loop body issues at one attempt
index: 1 if the headers call succeeded (the POST is then issued, even if
it fails at transport level), 0 if the headers call raised first. -/
def attemptHttpCalls (env : WatchlistEnv) (attempt : Nat) : Nat :=
  if (if attempt = 0 then env.auth1Ok else env.auth2Ok) then 1 else 0

/-- Run the loop over the given attempt indices; falling off the end of
the loop reaches the final raise at line 181 (`exhausted`).  Returns the
function outcome and the number of HTTP attempts issued. -/
def runLoop (env : WatchlistEnv) : List Nat → WatchlistResult × Nat
  | [] => (WatchlistResult.exhausted, 0)
  | a :: rest =>
    match attemptBody env a with
    | LoopStep.ret r => (r, attemptHttpCalls env a)
    | LoopStep.cont =>
      let t := runLoop env rest
      (t.1, attemptHttpCalls env a + t.2)

/-- _make_watchlist_request: the retry loop run for attempts 0 and 1
(`range(2)`), with the post-loop raise as fall-through. -/
def make_watchlist_request (env : WatchlistEnv) : WatchlistResult × Nat :=
  runLoop env [0, 1]

/-- An HTTP request as built by urllib.request.Request: url and method. -/
structure Request where
  url : String
  method : String
deriving DecidableEq, Repr

/-- The request object http_post builds (common.py lines 49-55,
starrtrakt.py lines 54-60): always method POST. -/
def http_post_request (url : String) : Request :=
  ⟨url, "POST"⟩

/-- The endpoint selection of _make_watchlist_request. -/
def watchlist_endpoint (action : String) : String :=
  if action = "remove" then "/sync/watchlist/remove" else "/sync/watchlist"

/-- The collection key selection of _make_watchlist_request. -/
def watchlist_key (media_type : String) : String :=
  if media_type = "series" then "shows" else "movies"

/-- The request that common.py's TraktWatchlistConnection.test_connection
issues (lines 198-202): it goes through http_post, so it is a POST to
/users/me. -/
def test_connection_request_common (base : String) : Request :=
  http_post_request (base ++ "/users/me")

/-- The request that starrtrakt.py's test_connection issues (lines
193-197): an explicit GET Request to /users/me. -/
def test_connection_request_starr (base : String) : Request :=
  ⟨base ++ "/users/me", "GET"⟩

/-- The exceptions the try block of test_connection can catch. -/
inductive TCError where
  | authError (e : AuthError)
  | transport
  | httpStatus (status : Nat) (body : String)
  | parseError
deriving DecidableEq, Repr

/-- The try block of common.py's test_connection: obtain headers (any
exception from the token chain propagates into the except), POST to
/users/me, raise on status >= 400, parse the body and resolve the
username (json.loads raising on a malformed body), and return True. The
`parsed` argument models json.loads + .get of the username: none for a
malformed body, otherwise the resolved username string. -/
def test_connection_try (hdrs : Except AuthError Unit) (resp : HttpOutcome)
    (parsed : String → Option String) : Except TCError String :=
  match hdrs with
  | Except.error e => Except.error (TCError.authError e)
  | Except.ok _ =>
    match resp with
    | HttpOutcome.transportFail => Except.error TCError.transport
    | HttpOutcome.resp s b =>
      if s ≥ 400 then Except.error (TCError.httpStatus s b)
      else
        match parsed b with
        | none => Except.error TCError.parseError
        | some u => Except.ok u

/-- test_connection: the try block wrapped in the except handler that logs
and returns False; on normal completion it returns True. Total — every
input yields a boolean. -/
def test_connection (hdrs : Except AuthError Unit) (resp : HttpOutcome)
    (parsed : String → Option String) : Bool :=
  match test_connection_try hdrs resp parsed with
  | Except.ok _ => true
  | Except.error _ => false

/-- Event data as passed to handle_event: None, or a dict built from
environment variables / a JSON argument.  An empty dict and None are both
falsy in the `if not event_data` test. -/
abbrev EventData := Option JObj

/-- Python truthiness of event_data. -/
def eventDataTruthy : EventData → Bool
  | none => false
  | some d => !d.isEmpty

/-- Per-application handler configuration: media type and the event-type
sets that trigger add respectively remove. -/
structure HandlerConfig where
  media_type : String
  add_events : List String
  remove_events : List String
deriving DecidableEq, Repr

/-- The radarr variant (starrtrakt.py lines 230-234, common.py
RadarrEventHandler). -/
def radarrConfig : HandlerConfig :=
  ⟨"movie", ["movieadded"], ["download", "moviedelete"]⟩

/-- The sonarr variant (starrtrakt.py lines 235-239, common.py
SonarrEventHandler). -/
def sonarrConfig : HandlerConfig :=
  ⟨"series", ["seriesadd"], ["download", "seriesdelete"]⟩

/-- Python str.lower() restricted to ASCII, as applied to event types. -/
def pyLower (s : String) : String :=
  String.mk (s.data.map Char.toLower)

/-- Which path handle_event takes: delegate to test_connection, skip for
missing data, add/remove against the watchlist, or the logged no-op. -/
inductive EventAction where
  | testConnection
  | skipNoData
  | addToWatchlist (media_type : String)
  | removeFromWatchlist (media_type : String)
  | noAction
deriving DecidableEq, Repr

/-- starrtrakt.py EventHandler.handle_event (lines 241-265): the test
check comes first, then the data-presence check, then dispatch on the
lowercased event type against the add/remove sets. -/
def EventHandler_handle_event (cfg : HandlerConfig) (event_type : String)
    (event_data : EventData) : EventAction :=
  if pyLower event_type = "test" then EventAction.testConnection
  else if !eventDataTruthy event_data then EventAction.skipNoData
  else
    let etl := pyLower event_type
    if etl ∈ cfg.add_events then EventAction.addToWatchlist cfg.media_type
    else if etl ∈ cfg.remove_events then EventAction.removeFromWatchlist cfg.media_type
    else EventAction.noAction

/-- common.py StarrEventHandler.handle_event (lines 245-272): the
data-presence check comes first, then the test check, then the same
dispatch. -/
def StarrEventHandler_handle_event (cfg : HandlerConfig) (event_type : String)
    (event_data : EventData) : EventAction :=
  if !eventDataTruthy event_data then EventAction.skipNoData
  else if pyLower event_type = "test" then EventAction.testConnection
  else
    let etl := pyLower event_type
    if etl ∈ cfg.add_events then EventAction.addToWatchlist cfg.media_type
    else if etl ∈ cfg.remove_events then EventAction.removeFromWatchlist cfg.media_type
    else EventAction.noAction

/-- The boolean handle_event returns for each action path (True for test
delegating to the connection result, False for missing data and unmatched
types, True for a successful add/remove). -/
def eventActionResult (testConnResult : Bool) : EventAction → Bool
  | EventAction.testConnection => testConnResult
  | EventAction.skipNoData => false
  | EventAction.addToWatchlist _ => true
  | EventAction.removeFromWatchlist _ => true
  | EventAction.noAction => false

/-- Whether a startup preamble terminates the process before any event is
handled. -/
inductive StartupResult where
  | exitError (code : Nat)
  | proceed
deriving DecidableEq, Repr

/-- Python truthiness of os.environ.get: None or the empty string is
falsy. -/
def envTruthy : Option String → Bool
  | none => false
  | some s => s ≠ ""

/-- starrtrakt.py module preamble (lines 14-20): if TRAKT_CLIENT_ID or
TRAKT_CLIENT_SECRET is falsy, print an error and sys.exit(1) before
anything else runs. -/
def starrtrakt_startup (clientId clientSecret : Option String) : StartupResult :=
  if !envTruthy clientId || !envTruthy clientSecret then StartupResult.exitError 1
  else StartupResult.proceed

/-- The radarr_trakt.py entry point together with the common.py module
preamble (common.py lines 12-13 only bind the two environment variables;
radarr_trakt.py main, lines 8-19, builds the handler, the event type and
the event data and calls handle_event): no credential check is performed
before handle_event, whatever the two variables hold. -/
def radarr_trakt_startup (_clientId _clientSecret : Option String) : StartupResult :=
  StartupResult.proceed

/-! ## Helper lemmas -/

/-- Serialization round-trip: reading back what trakt_save_tokens wrote
yields the identical record. -/
theorem tokenFromJson_tokenToJson (t : TokenRecord) : tokenFromJson (tokenToJson t) = t := by
  rcases t with ⟨a, r, c, e⟩
  rcases a with _ | a <;> rcases r with _ | r <;> rcases c with _ | c <;> rcases e with _ | e <;>
    rfl

/-- A record whose expiry check says "not expired" has created_at and
expires_in present with now at most the threshold. -/
theorem not_expired_fields (t : TokenRecord) (now : Int)
    (h : trakt_is_token_expired (some t) now = false) :
    ∃ c e, t.created_at = some c ∧ t.expires_in = some e ∧ now ≤ c + e - 60 := by
  rcases t with ⟨a, r, c, e⟩
  rcases c with _ | c <;> rcases e with _ | e <;>
    simp [trakt_is_token_expired, TokenRecord.isEmpty] at h ⊢
  exact h

/-- A record with created_at present is not the empty dict. -/
theorem isEmpty_false_of_created_at (t : TokenRecord) (c : Int)
    (h : t.created_at = some c) : t.isEmpty = false := by
  rcases t with ⟨a, r, cc, e⟩
  simp_all [TokenRecord.isEmpty]

/-- A record with refresh_token present is not the empty dict. -/
theorem isEmpty_false_of_refresh_token (t : TokenRecord)
    (h : t.refresh_token.isSome = true) : t.isEmpty = false := by
  rcases t with ⟨a, r, c, e⟩
  rcases r with _ | r
  · simp at h
  · simp [TokenRecord.isEmpty]

/-! ## Claims -/

/-- Example records used in concrete instantiations. -/
def tComplete : TokenRecord := ⟨some "a", some "r", some 100, some 100⟩

def tIncomplete : TokenRecord := ⟨none, none, some 100, some 100⟩

/-- C4 counterexample: the code checks only created_at and expires_in, not
all four TokenRecord fields, and uses a strict `now > threshold` test.  At
now = 139 a record missing access_token and refresh_token is reported not
expired (the claim says incomplete records are always expired), and at
now = 140 = created_at + expires_in - 60 a complete record is reported not
expired (the claim says times at the threshold are expired). -/
theorem C4_counterexample :
    trakt_is_token_expired (some tIncomplete) 139 = false ∧
    trakt_is_token_expired (some tComplete) 140 = false := by
  decide

/-- C4 (amended): trakt_is_token_expired returns false exactly when the
record is present, has created_at and expires_in present (access_token and
refresh_token are not inspected), and now ≤ created_at + expires_in - 60;
for all other inputs it returns true. -/
theorem C4_isExpired_iff (tokens : Option TokenRecord) (now : Int) :
    trakt_is_token_expired tokens now = false ↔
      ∃ t c e, tokens = some t ∧ t.created_at = some c ∧ t.expires_in = some e ∧
        now ≤ c + e - 60 := by
  constructor
  · intro h
    rcases tokens with _ | t
    · simp [trakt_is_token_expired] at h
    · obtain ⟨c, e, hc, he, hle⟩ := not_expired_fields t now h
      exact ⟨t, c, e, rfl, hc, he, hle⟩
  · rintro ⟨t, c, e, rfl, hc, he, hle⟩
    have hne := isEmpty_false_of_created_at t c hc
    simp [trakt_is_token_expired, hne, hc, he]
    omega

/-- C5: when the persisted token record loads and is not expired,
trakt_get_valid_tokens returns it unchanged with zero refresh exchanges,
zero PIN prompts and zero PIN exchanges, leaving the token file untouched. -/
theorem C5_fast_path (env : AuthEnv) (now : Int) (file : TokenFile) (t : TokenRecord)
    (hload : trakt_load_tokens file = some t)
    (hexp : trakt_is_token_expired (some t) now = false) :
    trakt_get_valid_tokens env now file =
      ⟨Except.ok t, file, 0, 0, 0⟩ := by
  obtain ⟨c, e, hc, _, _⟩ := not_expired_fields t now hexp
  have hne := isEmpty_false_of_created_at t c hc
  unfold trakt_get_valid_tokens
  rw [hload]
  simp [hne, hexp]

/-- C5 witness: a concrete non-expired persisted record at now = 100. -/
theorem C5_fast_path_witness :
    trakt_get_valid_tokens ⟨ExchangeResult.failure "x", "", ExchangeResult.failure "x"⟩ 100
        (some (tokenToJson tComplete)) =
      ⟨Except.ok tComplete, some (tokenToJson tComplete), 0, 0, 0⟩ :=
  C5_fast_path _ 100 _ tComplete (by decide) (by decide)

/-- An expired stored record carrying a refresh token, for concrete
instantiations. -/
def tExpiredStore : TokenRecord := ⟨some "a", some "r", some 0, some 30⟩

/-- A token-exchange response whose timestamps are already stale. -/
def tStaleResp : TokenRecord := ⟨some "b", some "s", some 0, some 0⟩

/-- A fresh token-exchange response. -/
def tFreshResp : TokenRecord := ⟨some "b", some "s", some 1000, some 7200⟩

/-- C6: when the stored record is expired but carries a refresh token and
the refresh exchange fails, trakt_get_valid_tokens does not raise there: it
proceeds to the PIN flow (one prompt, the refresh exchange counted once);
if the stripped PIN input is empty it then raises the
no-PIN authentication error without issuing any PIN exchange. -/
theorem C6_refresh_failure_falls_through (env : AuthEnv) (now : Int) (file : TokenFile)
    (t : TokenRecord) (msg : String)
    (hload : trakt_load_tokens file = some t)
    (hexp : trakt_is_token_expired (some t) now = true)
    (hrt : t.refresh_token.isSome = true)
    (hfail : env.refreshResult = ExchangeResult.failure msg) :
    trakt_get_valid_tokens env now file = pinFlow env file 1 ∧
    (trakt_get_valid_tokens env now file).pinPrompts = 1 ∧
    (trakt_get_valid_tokens env now file).refreshCalls = 1 ∧
    (pyStrip env.pinInput = "" →
      (trakt_get_valid_tokens env now file).result = Except.error AuthError.noPin ∧
      (trakt_get_valid_tokens env now file).pinExchangeCalls = 0) := by
  have hne := isEmpty_false_of_refresh_token t hrt
  have hmain : trakt_get_valid_tokens env now file = pinFlow env file 1 := by
    unfold trakt_get_valid_tokens
    rw [hload]
    simp [hne, hexp, hrt, hfail]
  refine ⟨hmain, ?_, ?_, ?_⟩
  · rw [hmain]
    by_cases hp : pyStrip env.pinInput = ""
    · simp [pinFlow, hp]
    · cases hq : env.pinExchangeResult <;> simp [pinFlow, hp, hq]
  · rw [hmain]
    by_cases hp : pyStrip env.pinInput = ""
    · simp [pinFlow, hp]
    · cases hq : env.pinExchangeResult <;> simp [pinFlow, hp, hq]
  · intro hpin
    rw [hmain]
    simp [pinFlow, hpin]

/-- C6 witness: concrete expired store, failing refresh, whitespace-only
PIN input. -/
theorem C6_refresh_failure_falls_through_witness :
    trakt_get_valid_tokens ⟨ExchangeResult.failure "boom", " ", ExchangeResult.failure "x"⟩ 1000
        (some (tokenToJson tExpiredStore)) =
      pinFlow ⟨ExchangeResult.failure "boom", " ", ExchangeResult.failure "x"⟩
        (some (tokenToJson tExpiredStore)) 1 ∧
    (trakt_get_valid_tokens ⟨ExchangeResult.failure "boom", " ", ExchangeResult.failure "x"⟩ 1000
        (some (tokenToJson tExpiredStore))).result = Except.error AuthError.noPin ∧
    (trakt_get_valid_tokens ⟨ExchangeResult.failure "boom", " ", ExchangeResult.failure "x"⟩ 1000
        (some (tokenToJson tExpiredStore))).pinExchangeCalls = 0 := by
  have h := C6_refresh_failure_falls_through
    ⟨ExchangeResult.failure "boom", " ", ExchangeResult.failure "x"⟩ 1000
    (some (tokenToJson tExpiredStore)) tExpiredStore "boom"
    (by decide) (by decide) (by decide) rfl
  exact ⟨h.1, (h.2.2.2 (by decide)).1, (h.2.2.2 (by decide)).2⟩

/-- C7 counterexample: the code performs no freshness check on a
successful refresh response.  With the expired store at now = 1000, a
successful exchange answering a record with created_at = 0, expires_in = 0
is persisted and returned (exactly one refresh exchange), yet that record
is already expired immediately after save — the claim asserts
isExpired == false there. -/
theorem C7_counterexample :
    trakt_get_valid_tokens ⟨ExchangeResult.success tStaleResp, "p", ExchangeResult.failure "x"⟩
        1000 (some (tokenToJson tExpiredStore)) =
      ⟨Except.ok tStaleResp, trakt_save_tokens tStaleResp, 1, 0, 0⟩ ∧
    trakt_is_token_expired (some tStaleResp) 1000 = true :=
  ⟨rfl, rfl⟩

/-- C7 (amended): for an expired stored record carrying a refresh token,
trakt_get_valid_tokens issues exactly one refresh exchange (and no PIN
exchange); on success the response record is persisted and returned, and
the saved file reloads to an identical record; the returned record
satisfies isExpired == false when (and only because) the response's own
timestamps put the threshold in the future — the code does not check this. -/
theorem C7_refresh_success (env : AuthEnv) (now : Int) (file : TokenFile)
    (t newT : TokenRecord)
    (hload : trakt_load_tokens file = some t)
    (hexp : trakt_is_token_expired (some t) now = true)
    (hrt : t.refresh_token.isSome = true)
    (hsucc : env.refreshResult = ExchangeResult.success newT) :
    trakt_get_valid_tokens env now file =
      ⟨Except.ok newT, trakt_save_tokens newT, 1, 0, 0⟩ ∧
    trakt_load_tokens (trakt_save_tokens newT) = some newT ∧
    (∀ c e, newT.created_at = some c → newT.expires_in = some e → now ≤ c + e - 60 →
      trakt_is_token_expired (some newT) now = false) := by
  have hne := isEmpty_false_of_refresh_token t hrt
  refine ⟨?_, ?_, ?_⟩
  · unfold trakt_get_valid_tokens
    rw [hload]
    simp [hne, hexp, hrt, hsucc]
  · simp [trakt_load_tokens, trakt_save_tokens, tokenFromJson_tokenToJson]
  · intro c e hc he hle
    have hne2 := isEmpty_false_of_created_at newT c hc
    simp [trakt_is_token_expired, hne2, hc, he]
    omega

/-- C7 witness: expired store, successful refresh answering a fresh
record at now = 1000. -/
theorem C7_refresh_success_witness :
    trakt_get_valid_tokens ⟨ExchangeResult.success tFreshResp, "p", ExchangeResult.failure "x"⟩
        1000 (some (tokenToJson tExpiredStore)) =
      ⟨Except.ok tFreshResp, trakt_save_tokens tFreshResp, 1, 0, 0⟩ ∧
    trakt_load_tokens (trakt_save_tokens tFreshResp) = some tFreshResp ∧
    trakt_is_token_expired (some tFreshResp) 1000 = false := by
  have h := C7_refresh_success
    ⟨ExchangeResult.success tFreshResp, "p", ExchangeResult.failure "x"⟩ 1000
    (some (tokenToJson tExpiredStore)) tExpiredStore tFreshResp
    (by decide) (by decide) (by decide) rfl
  exact ⟨h.1, h.2.1, h.2.2 1000 7200 rfl rfl (by decide)⟩

/-- The re-authentication step of the 401 branch of
_make_watchlist_request (starrtrakt.py line 173, common.py line 177): it
is a plain call of trakt_get_valid_tokens, with no forcing flag. -/
def watchlist_reauth (env : AuthEnv) (now : Int) (file : TokenFile) : AuthOutcome :=
  trakt_get_valid_tokens env now file

/-- C2 counterexample: the re-authentication invoked in the 401 branch is
the ordinary trakt_get_valid_tokens, which keeps its fast-path cache
check.  With a persisted record whose timestamps say it is not yet expired
(created_at = 100, expires_in = 100, now = 100) the call returns that
record unchanged with zero refresh and zero PIN exchanges — it does
"simply return the persisted token record unchanged", contradicting the
claim. -/
theorem C2_counterexample :
    watchlist_reauth ⟨ExchangeResult.success tFreshResp, "p", ExchangeResult.failure "x"⟩ 100
        (some (tokenToJson tComplete)) =
      ⟨Except.ok tComplete, some (tokenToJson tComplete), 0, 0, 0⟩ :=
  rfl

/-- C2 (amended): the re-authentication performed before the retry is the
standard trakt_get_valid_tokens call, which does not bypass the fast-path
cache check: whenever the persisted record's timestamps say it is not yet
expired, it is returned unchanged with no token exchange; a refresh is
forced only when the record is absent, incomplete, or expired by its
timestamps. -/
theorem C2_reauth_keeps_fast_path (env : AuthEnv) (now : Int) (file : TokenFile)
    (t : TokenRecord)
    (hload : trakt_load_tokens file = some t)
    (hexp : trakt_is_token_expired (some t) now = false) :
    watchlist_reauth env now file = ⟨Except.ok t, file, 0, 0, 0⟩ := by
  obtain ⟨c, e, hc, _, _⟩ := not_expired_fields t now hexp
  have hne := isEmpty_false_of_created_at t c hc
  unfold watchlist_reauth trakt_get_valid_tokens
  rw [hload]
  simp [hne, hexp]

/-- C2 amended-claim witness: concrete still-valid record, the re-auth
call leaves everything unchanged with zero exchanges. -/
theorem C2_reauth_keeps_fast_path_witness :
    watchlist_reauth ⟨ExchangeResult.failure "y", "p", ExchangeResult.failure "x"⟩ 120
        (some (tokenToJson tComplete)) =
      ⟨Except.ok tComplete, some (tokenToJson tComplete), 0, 0, 0⟩ :=
  C2_reauth_keeps_fast_path _ 120 _ tComplete (by decide) (by decide)

/-- Each attempt issues at most one HTTP POST. -/
theorem attemptHttpCalls_le_one (env : WatchlistEnv) (a : Nat) :
    attemptHttpCalls env a ≤ 1 := by
  unfold attemptHttpCalls
  repeat' split
  all_goals simp

/-- Unrolling the loop over the two attempt indices of range(2). -/
theorem runLoop_two (env : WatchlistEnv) :
    runLoop env [0, 1] =
      match attemptBody env 0 with
      | LoopStep.ret r => (r, attemptHttpCalls env 0)
      | LoopStep.cont =>
        match attemptBody env 1 with
        | LoopStep.ret r => (r, attemptHttpCalls env 0 + attemptHttpCalls env 1)
        | LoopStep.cont =>
            (WatchlistResult.exhausted, attemptHttpCalls env 0 + attemptHttpCalls env 1) := by
  cases h0 : attemptBody env 0 <;> cases h1 : attemptBody env 1 <;>
    simp [runLoop, h0, h1]

/-- The loop body never returns through the post-loop raise constructor. -/
theorem attemptBody_ne_ret_exhausted (env : WatchlistEnv) (a : Nat) :
    attemptBody env a ≠ LoopStep.ret WatchlistResult.exhausted := by
  unfold attemptBody
  repeat' split
  all_goals dsimp only
  all_goals split <;> simp

/-- On the second iteration (attempt index 1) the 401-continue branch is
unreachable, so the body always returns or raises. -/
theorem attemptBody_one_ne_cont (env : WatchlistEnv) :
    attemptBody env 1 ≠ LoopStep.cont := by
  unfold attemptBody
  repeat' split
  all_goals dsimp only
  all_goals split <;> simp_all

/-- C1: a watchlist operation makes at most 2 HTTP attempts; a first-attempt
401 (with the auth calls succeeding) leads to exactly one retried request,
i.e. exactly 2 attempts; a status >= 400 on the retried attempt — including
a second 401 — raises the request error carrying that status and body; and
a first-attempt status >= 400 other than 401 raises the request error
immediately with one attempt made. -/
theorem C1_retry_protocol (env : WatchlistEnv) :
    (make_watchlist_request env).2 ≤ 2 ∧
    (∀ b, env.auth1Ok = true → env.reauthOk = true → env.auth2Ok = true →
      env.resp1 = HttpOutcome.resp 401 b →
      (make_watchlist_request env).2 = 2) ∧
    (∀ b s2 b2, env.auth1Ok = true → env.reauthOk = true → env.auth2Ok = true →
      env.resp1 = HttpOutcome.resp 401 b →
      env.resp2 = HttpOutcome.resp s2 b2 → 400 ≤ s2 →
      (make_watchlist_request env).1 = WatchlistResult.requestError s2 b2) ∧
    (∀ s b, env.auth1Ok = true → env.resp1 = HttpOutcome.resp s b →
      400 ≤ s → s ≠ 401 →
      (make_watchlist_request env).1 = WatchlistResult.requestError s b ∧
      (make_watchlist_request env).2 = 1) := by
  refine ⟨?_, ?_, ?_, ?_⟩
  · have h0 := attemptHttpCalls_le_one env 0
    have h1 := attemptHttpCalls_le_one env 1
    rw [make_watchlist_request, runLoop_two]
    cases attemptBody env 0 <;> cases attemptBody env 1 <;> dsimp only <;> omega
  · intro b h1 hr h2 hresp
    have hb0 : attemptBody env 0 = LoopStep.cont := by
      simp [attemptBody, h1, hr, hresp]
    have hc1 : attemptHttpCalls env 0 = 1 := by simp [attemptHttpCalls, h1]
    have hc2 : attemptHttpCalls env 1 = 1 := by simp [attemptHttpCalls, h2]
    rw [make_watchlist_request, runLoop_two, hb0]
    cases attemptBody env 1 <;> simp [hc1, hc2]
  · intro b s2 b2 h1 hr h2 hresp hresp2 hs2
    have hb0 : attemptBody env 0 = LoopStep.cont := by
      simp [attemptBody, h1, hr, hresp]
    have hb1 : attemptBody env 1 = LoopStep.ret (WatchlistResult.requestError s2 b2) := by
      have hs401 : ¬(s2 = 401 ∧ (1 : Nat) = 0) := by omega
      simp [attemptBody, h2, hresp2, hs2, hs401]
    rw [make_watchlist_request, runLoop_two, hb0, hb1]
  · intro s b h1 hresp hs hs401
    have hb0 : attemptBody env 0 = LoopStep.ret (WatchlistResult.requestError s b) := by
      simp [attemptBody, h1, hresp, hs, hs401]
    have hc1 : attemptHttpCalls env 0 = 1 := by simp [attemptHttpCalls, h1]
    rw [make_watchlist_request, runLoop_two, hb0]
    exact ⟨rfl, hc1⟩

/-- C1 witness: both attempts answer 401 — exactly 2 attempts and the
request error carries the second status and body; and a single-attempt 500. -/
theorem C1_retry_protocol_witness :
    (make_watchlist_request
        ⟨true, true, true, HttpOutcome.resp 401 "x", HttpOutcome.resp 401 "denied"⟩).2 = 2 ∧
    (make_watchlist_request
        ⟨true, true, true, HttpOutcome.resp 401 "x", HttpOutcome.resp 401 "denied"⟩).1 =
      WatchlistResult.requestError 401 "denied" ∧
    (make_watchlist_request
        ⟨true, true, true, HttpOutcome.resp 500 "oops", HttpOutcome.resp 200 ""⟩).1 =
      WatchlistResult.requestError 500 "oops" := by
  refine ⟨?_, ?_, ?_⟩
  · exact (C1_retry_protocol
      ⟨true, true, true, HttpOutcome.resp 401 "x", HttpOutcome.resp 401 "denied"⟩).2.1
      "x" rfl rfl rfl rfl
  · exact (C1_retry_protocol
      ⟨true, true, true, HttpOutcome.resp 401 "x", HttpOutcome.resp 401 "denied"⟩).2.2.1
      "x" 401 "denied" rfl rfl rfl rfl rfl (by omega)
  · exact ((C1_retry_protocol
      ⟨true, true, true, HttpOutcome.resp 500 "oops", HttpOutcome.resp 200 ""⟩).2.2.2
      500 "oops" rfl rfl (by omega) (by omega)).1

/-- C10: the raise after the retry loop is unreachable: for every
environment (every combination of auth outcomes and HTTP responses) the
two-iteration loop terminates by a return or an in-loop raise, never by
falling through to the post-loop raise. -/
theorem C10_final_raise_unreachable (env : WatchlistEnv) :
    (make_watchlist_request env).1 ≠ WatchlistResult.exhausted := by
  rw [make_watchlist_request, runLoop_two]
  cases h0 : attemptBody env 0 with
  | ret r =>
    dsimp only
    intro hc
    rw [hc] at h0
    exact attemptBody_ne_ret_exhausted env 0 h0
  | cont =>
    cases h1 : attemptBody env 1 with
    | ret r =>
      dsimp only
      intro hc
      rw [hc] at h1
      exact attemptBody_ne_ret_exhausted env 1 h1
    | cont => exact absurd h1 (attemptBody_one_ne_cont env)

/-- C3: the two handle_event implementations diverge on a "test" event with
empty or absent data.  starrtrakt.py's EventHandler checks the test type
first and delegates to test_connection; common.py's StarrEventHandler
checks data presence first and returns the no-data failure without calling
test_connection — though radarr_trakt.py's default invocation reaches it
with event_type "test" and absent data.  Case-insensitivity and the
with-data path agree in both. -/
theorem C3_test_event_divergence :
    EventHandler_handle_event radarrConfig "test" (some []) = EventAction.testConnection ∧
    EventHandler_handle_event radarrConfig "Test" none = EventAction.testConnection ∧
    StarrEventHandler_handle_event radarrConfig "test" (some []) = EventAction.skipNoData ∧
    StarrEventHandler_handle_event radarrConfig "test" none = EventAction.skipNoData ∧
    StarrEventHandler_handle_event radarrConfig "Test"
        (some [("x", JVal.int 1)]) = EventAction.testConnection := by
  decide

/-- C8 counterexample: common.py's test_connection issues its
account-identity request through http_post, so the request method is POST,
not the GET the claim states (starrtrakt.py's variant does issue a GET). -/
theorem C8_counterexample :
    (test_connection_request_common "https://api.trakt.tv").method = "POST" ∧
    (test_connection_request_common "https://api.trakt.tv").method ≠ "GET" ∧
    (test_connection_request_starr "https://api.trakt.tv").method = "GET" := by
  decide

/-- C8 (amended): test_connection never raises — it is total, returning a
boolean for every combination of header-acquisition outcome, HTTP outcome
and body parse: false when the token chain raises, on a transport error,
on a status >= 400, or on a malformed body; true exactly when the request
succeeds with a parseable body (the request itself is a GET in
starrtrakt.py and goes through the POST helper in common.py). -/
theorem C8_test_connection_total (hdrs : Except AuthError Unit) (resp : HttpOutcome)
    (parsed : String → Option String) :
    (∀ e, hdrs = Except.error e → test_connection hdrs resp parsed = false) ∧
    (hdrs = Except.ok () → resp = HttpOutcome.transportFail →
      test_connection hdrs resp parsed = false) ∧
    (∀ s b, hdrs = Except.ok () → resp = HttpOutcome.resp s b → 400 ≤ s →
      test_connection hdrs resp parsed = false) ∧
    (∀ s b, hdrs = Except.ok () → resp = HttpOutcome.resp s b → s < 400 →
      parsed b = none → test_connection hdrs resp parsed = false) ∧
    (∀ s b u, hdrs = Except.ok () → resp = HttpOutcome.resp s b → s < 400 →
      parsed b = some u → test_connection hdrs resp parsed = true) := by
  refine ⟨?_, ?_, ?_, ?_, ?_⟩
  · rintro e rfl
    rfl
  · rintro rfl rfl
    rfl
  · rintro s b rfl rfl hs
    simp [test_connection, test_connection_try, Nat.not_lt.mpr hs, hs]
  · rintro s b rfl rfl hs hp
    simp [test_connection, test_connection_try, Nat.not_le.mpr hs, hp]
  · rintro s b u rfl rfl hs hp
    simp [test_connection, test_connection_try, Nat.not_le.mpr hs, hp]

/-- C8 witness: concrete failure (HTTP 401) and success (HTTP 200 with a
username) probes. -/
theorem C8_test_connection_total_witness :
    test_connection (Except.ok ()) (HttpOutcome.resp 401 "denied") (fun _ => some "u") = false ∧
    test_connection (Except.ok ()) (HttpOutcome.resp 200 "body") (fun _ => some "u") = true ∧
    test_connection (Except.error AuthError.noPin) (HttpOutcome.resp 200 "body")
      (fun _ => some "u") = false := by
  refine ⟨?_, ?_, ?_⟩
  · exact (C8_test_connection_total (Except.ok ()) (HttpOutcome.resp 401 "denied")
      (fun _ => some "u")).2.2.1 401 "denied" rfl rfl (by omega)
  · exact (C8_test_connection_total (Except.ok ()) (HttpOutcome.resp 200 "body")
      (fun _ => some "u")).2.2.2.2 200 "body" "u" rfl rfl (by omega) rfl
  · exact (C8_test_connection_total (Except.error AuthError.noPin)
      (HttpOutcome.resp 200 "body") (fun _ => some "u")).1 AuthError.noPin rfl

/-- C9: the starrtrakt.py entry point does exit with status 1 when either
credential variable is absent or empty, but the radarr_trakt.py entry
point (through common.py) performs no credential check at all and proceeds
to event handling with both variables absent — the claim that every entry
point terminates before handling any event fails there. -/
theorem C9_startup_divergence :
    starrtrakt_startup none none = StartupResult.exitError 1 ∧
    starrtrakt_startup (some "") (some "x") = StartupResult.exitError 1 ∧
    starrtrakt_startup (some "id") none = StartupResult.exitError 1 ∧
    starrtrakt_startup (some "id") (some "secret") = StartupResult.proceed ∧
    radarr_trakt_startup none none = StartupResult.proceed := by
  decide

end StarrTrakt
